import Mathlib

/-!
Shallow embedding of the core of `projeto.py`: a small in-process ledger
simulator with customers, accounts (base `Account` and `CheckingAccount`),
transactions (`Deposit`, `Withdrawal`) and a per-account append-only
`TransactionHistory`.

Python floats for money are modelled as exact rationals (`ℚ`); the mutable
objects are modelled as explicit state records, and each Python method that
mutates `self` becomes a function `… → state → result × state` (or
`… → state → state` for `void` methods).  The `"type"` field of a recorded
history entry is the transaction class name string, exactly as in
`TransactionHistory.add_transaction` (`transaction.__class__.__name__`).
-/

/-- One recorded history entry: the dict
`{"type": class name, "amount": amount, "date": timestamp}` appended by
`TransactionHistory.add_transaction`. -/
structure Entry where
  kind : String
  amount : ℚ
  date : String
  deriving DecidableEq, Repr

/-- Mutable state of a base `Account` (`Account.__init__`): balance starts
at 0, branch is the constant `"0001"`, the history starts empty.  The owning
customer is abstracted to its identifying data (a string). -/
structure AccountState where
  balance : ℚ
  number : ℕ
  branch : String
  customer : String
  history : List Entry
  deriving DecidableEq, Repr

/-- Embeds `Account.new_account(customer, number)` / `Account.__init__`. -/
def Account.new_account (customer : String) (number : ℕ) : AccountState :=
  { balance := 0, number := number, branch := "0001", customer := customer,
    history := [] }

/-- Embeds `Account.withdraw(amount)`: `insufficient_funds = amount > balance`;
if insufficient funds, fail; elif `amount > 0`, subtract and succeed;
else fail.  Returns the Python boolean and the post-state. -/
def Account.withdraw (amount : ℚ) (s : AccountState) : Bool × AccountState :=
  if amount > s.balance then (false, s)
  else if amount > 0 then (true, { s with balance := s.balance - amount })
  else (false, s)

/-- Embeds `Account.deposit(amount)`: if `amount > 0`, add and succeed; else fail. -/
def Account.deposit (amount : ℚ) (s : AccountState) : Bool × AccountState :=
  if amount > 0 then (true, { s with balance := s.balance + amount })
  else (false, s)

/-- Mutable state of a `CheckingAccount`: the base account state plus the
single-withdrawal ceiling `_limit` and the maximum withdrawal count
`_withdrawal_limit`. -/
structure CheckingState where
  acct : AccountState
  limit : ℚ
  withdrawal_limit : ℕ
  deriving DecidableEq, Repr

/-- Embeds `CheckingAccount.new_account(customer, number)` with the default
`limit=500`, `withdrawal_limit=3` (`CheckingAccount.__init__`). -/
def CheckingAccount.new_account (customer : String) (number : ℕ) :
    CheckingState :=
  { acct := Account.new_account customer number, limit := 500,
    withdrawal_limit := 3 }

/-- The inline count in `CheckingAccount.withdraw`:
`len([t for t in self.history.transactions if t["type"] == Withdrawal.__name__])`. -/
def countWithdrawals (h : List Entry) : ℕ :=
  (h.filter (fun t => t.kind == "Withdrawal")).length

/-- Embeds `CheckingAccount.withdraw(amount)`: computes the number of recorded
withdrawals, then checks `exceeded_limit = amount > self._limit`, then
`exceeded_withdrawals = number_withdrawals >= self._withdrawal_limit`,
and only otherwise delegates to `super().withdraw(amount)`. -/
def CheckingAccount.withdraw (amount : ℚ) (c : CheckingState) :
    Bool × CheckingState :=
  let number_withdrawals := countWithdrawals c.acct.history
  let exceeded_limit := amount > c.limit
  let exceeded_withdrawals := number_withdrawals ≥ c.withdrawal_limit
  if exceeded_limit then (false, c)
  else if exceeded_withdrawals then (false, c)
  else
    let r := Account.withdraw amount c.acct
    (r.1, { c with acct := r.2 })

/-- The method `deposit` as inherited (not overridden) by `CheckingAccount`: the base
rule acting on the embedded account state. -/
def CheckingAccount.deposit (amount : ℚ) (c : CheckingState) :
    Bool × CheckingState :=
  let r := Account.deposit amount c.acct
  (r.1, { c with acct := r.2 })

/-- Embeds `TransactionHistory.add_transaction(transaction)`: appends the dict
`{"type": transaction.__class__.__name__, "amount": …, "date": now}`.
The wall-clock timestamp string is passed in explicitly. -/
def TransactionHistory.add_transaction (kind : String) (amount : ℚ)
    (date : String) (h : List Entry) : List Entry :=
  h ++ [{ kind := kind, amount := amount, date := date }]

/-- Embeds `Withdrawal(amount).register(account)` on a base account: call
`account.withdraw(self.amount)` and, only on success,
`account.history.add_transaction(self)`. -/
def Withdrawal.register (amount : ℚ) (date : String) (s : AccountState) :
    AccountState :=
  let r := Account.withdraw amount s
  if r.1 then
    { r.2 with
      history := TransactionHistory.add_transaction "Withdrawal" amount date
        r.2.history }
  else r.2

/-- Embeds `Deposit(amount).register(account)` on a base account. -/
def Deposit.register (amount : ℚ) (date : String) (s : AccountState) :
    AccountState :=
  let r := Account.deposit amount s
  if r.1 then
    { r.2 with
      history := TransactionHistory.add_transaction "Deposit" amount date
        r.2.history }
  else r.2

/-- Embeds `Withdrawal(amount).register(account)` when `account` is a
`CheckingAccount`: dynamic dispatch selects `CheckingAccount.withdraw`. -/
def Withdrawal.registerOnChecking (amount : ℚ) (date : String)
    (c : CheckingState) : CheckingState :=
  let r := CheckingAccount.withdraw amount c
  if r.1 then
    { r.2 with
      acct := { r.2.acct with
        history := TransactionHistory.add_transaction "Withdrawal" amount date
          r.2.acct.history } }
  else r.2

/-- Embeds `Deposit(amount).register(account)` when `account` is a
`CheckingAccount` (deposit itself is inherited). -/
def Deposit.registerOnChecking (amount : ℚ) (date : String)
    (c : CheckingState) : CheckingState :=
  let r := CheckingAccount.deposit amount c
  if r.1 then
    { r.2 with
      acct := { r.2.acct with
        history := TransactionHistory.add_transaction "Deposit" amount date
          r.2.acct.history } }
  else r.2

/-- A run of `Withdrawal(amount).register(account)` calls on one base
account: each element is the requested amount together with the wall-clock
timestamp at which it would be recorded. -/
def applyWithdrawals (l : List (ℚ × String)) (s : AccountState) :
    AccountState :=
  l.foldl (fun s p => Withdrawal.register p.1 p.2 s) s

/-- How many of the withdrawal applications in `l`, run in order from
state `s`, are reported successful by `Account.withdraw`. -/
def successfulWithdrawals (l : List (ℚ × String)) (s : AccountState) : ℕ :=
  match l with
  | [] => 0
  | p :: rest =>
    (if (Account.withdraw p.1 s).1 then 1 else 0) +
      successfulWithdrawals rest (Withdrawal.register p.1 p.2 s)

/-- A direct deposit or withdraw call on an account (the two balance
mutating operations of the `Account` interface). -/
inductive AccountOp where
  | dep : ℚ → AccountOp
  | wd : ℚ → AccountOp
  deriving DecidableEq, Repr

/-- Run a sequence of direct `deposit`/`withdraw` calls on a base account,
keeping the final state whether each call succeeds or fails. -/
def Account.runOps (l : List AccountOp) (s : AccountState) : AccountState :=
  l.foldl
    (fun s op =>
      match op with
      | AccountOp.dep a => (Account.deposit a s).2
      | AccountOp.wd a => (Account.withdraw a s).2)
    s

/-- Run a sequence of direct `deposit`/`withdraw` calls on a checking
account (`withdraw` dispatching to `CheckingAccount.withdraw`). -/
def CheckingAccount.runOps (l : List AccountOp) (c : CheckingState) :
    CheckingState :=
  l.foldl
    (fun c op =>
      match op with
      | AccountOp.dep a => (CheckingAccount.deposit a c).2
      | AccountOp.wd a => (CheckingAccount.withdraw a c).2)
    c

/-- A transaction request as built by the CLI: kind, amount, and the
timestamp the history would record. -/
inductive TxReq where
  | dep : ℚ → String → TxReq
  | wd : ℚ → String → TxReq
  deriving DecidableEq, Repr

/-- Apply a sequence of `Deposit`/`Withdrawal` transactions to a checking
account via `Transaction.register`. -/
def applyTxs (l : List TxReq) (c : CheckingState) : CheckingState :=
  l.foldl
    (fun c t =>
      match t with
      | TxReq.dep a d => Deposit.registerOnChecking a d c
      | TxReq.wd a d => Withdrawal.registerOnChecking a d c)
    c

/-- How many withdrawal transactions in `l`, applied in order from `c`,
are reported successful by `CheckingAccount.withdraw`. -/
def successfulTxWithdrawals (l : List TxReq) (c : CheckingState) : ℕ :=
  match l with
  | [] => 0
  | TxReq.dep a d :: rest =>
    successfulTxWithdrawals rest (Deposit.registerOnChecking a d c)
  | TxReq.wd a d :: rest =>
    (if (CheckingAccount.withdraw a c).1 then 1 else 0) +
      successfulTxWithdrawals rest (Withdrawal.registerOnChecking a d c)

/-!
Date validation.  `validate_date` calls
`datetime.strptime(date_str, "%d-%m-%Y")` and converts its `ValueError`
into `InvalidDateException`.  The CPython module `_strptime` (3.11)
compiles the format into the regex
`(?P<d>3[0-1]|[1-2]\d|0[1-9]|[1-9]| [1-9])-(?P<m>1[0-2]|0[1-9]|[1-9])-(?P<Y>\d\d\d\d)`,
requires the regex to consume the whole input, converts each captured
field with `int()`, and then builds `datetime(year, month, day)`, which
additionally requires `year ≥ 1` and `day ≤ days_in_month(month, year)`
(proleptic Gregorian leap rule).  In a Python `str` pattern `\d` matches
exactly the Unicode decimal digits (category `Nd`, 660 characters in 66
aligned runs of ten), and `int()` maps each such digit to its decimal
value, ignoring leading whitespace (relevant for the day alternative
`' [1-9]'`, a space followed by an ASCII digit).  Explicit classes such
as `[1-9]`, `[0-1]` and the literal `3` match only ASCII.  No field
alternative can match `-`, so matching the whole input against that
regex is the same as splitting the input at every `-` and getting
exactly three fields, each wholly matched by its field pattern (every
alternative is one or two characters long, so whole-field matching is a
length-bounded case split).
-/

/-- Split a character list at every `-` (each field of the strptime regex
is digit-only, so every dash in the input must be a field separator). -/
def splitDash : List Char → List (List Char)
  | [] => [[]]
  | c :: rest =>
    if c = '-' then [] :: splitDash rest
    else
      match splitDash rest with
      | [] => [[c]]
      | f :: fs => (c :: f) :: fs

/-- Numeric value of a digit character. -/
def charVal (c : Char) : ℕ := c.toNat - 48

/-- Models `int()` applied to an ASCII digit string (leading zeros
allowed); used by the spec-worded format predicate. -/
def listToNat (l : List Char) : ℕ :=
  l.foldl (fun acc c => 10 * acc + charVal c) 0

/-- The first code point of each run of ten consecutive Unicode decimal
digits (category `Nd`), with decimal values 0 through 9 in order: the
660 characters that a Python `str`-pattern `\d` matches and `int()`
converts (CPython 3.11, Unicode 14.0). -/
def ndRunStarts : List ℕ :=
  [48, 1632, 1776, 1984, 2406, 2534, 2662, 2790, 2918, 3046, 3174, 3302,
   3430, 3558, 3664, 3792, 3872, 4160, 4240, 6112, 6160, 6470, 6608,
   6784, 6800, 6992, 7088, 7232, 7248, 42528, 43216, 43264, 43472,
   43504, 43600, 44016, 65296, 66720, 68912, 69734, 69872, 69942, 70096,
   70384, 70736, 70864, 71248, 71360, 71472, 71904, 72016, 72784, 73040,
   73120, 92768, 92864, 93008, 120782, 120792, 120802, 120812, 120822,
   123200, 123632, 125264, 130032]

/-- The decimal value of a Unicode decimal digit (category `Nd`), or
`none` for every other character: the digit semantics shared by the
regex `\d` and by `int()`. -/
def pyDigitVal (c : Char) : Option ℕ :=
  match ndRunStarts.find? (fun s => s ≤ c.toNat && c.toNat < s + 10) with
  | some s => some (c.toNat - s)
  | none => none

/-- Whether `\d` matches the character. -/
def isPyDigit (c : Char) : Bool := (pyDigitVal c).isSome

/-- Whether the character is an ASCII digit `1`-`9` (the classes
`[1-9]` in the strptime regexes match only these). -/
def isAsciiOneToNine (c : Char) : Bool :=
  decide (49 ≤ c.toNat ∧ c.toNat ≤ 57)

/-- Models `int()` applied to a captured field: leading whitespace (here
only the space of the `' [1-9]'` day alternative) is ignored and each
Unicode decimal digit contributes its decimal value. -/
def pyIntVal (l : List Char) : ℕ :=
  (l.dropWhile (fun c => c = ' ')).foldl
    (fun acc c => 10 * acc + (pyDigitVal c).getD 0) 0

/-- Whole-field match of the day pattern
`3[0-1]|[1-2]\d|0[1-9]|[1-9]| [1-9]`: each alternative written out, with
`\d` any Unicode decimal digit and the explicit classes ASCII. -/
def dayFieldOk (l : List Char) : Bool :=
  match l with
  | [c] => isAsciiOneToNine c
  | [c1, c2] =>
    (c1 == '3' && (c2 == '0' || c2 == '1')) ||
      ((c1 == '1' || c1 == '2') && isPyDigit c2) ||
      (c1 == '0' && isAsciiOneToNine c2) ||
      (c1 == ' ' && isAsciiOneToNine c2)
  | _ => false

/-- Whole-field match of the month pattern `1[0-2]|0[1-9]|[1-9]`
(ASCII only). -/
def monthFieldOk (l : List Char) : Bool :=
  match l with
  | [c] => isAsciiOneToNine c
  | [c1, c2] =>
    (c1 == '1' && (c2 == '0' || c2 == '1' || c2 == '2')) ||
      (c1 == '0' && isAsciiOneToNine c2)
  | _ => false

/-- Whole-field match of the year pattern `\d\d\d\d`: exactly four
Unicode decimal digits. -/
def yearFieldOk (l : List Char) : Bool :=
  l.all isPyDigit && decide (l.length = 4)

/-- The proleptic Gregorian leap-year rule used by `datetime`. -/
def isLeap (y : ℕ) : Bool :=
  y % 4 == 0 && (y % 100 != 0 || y % 400 == 0)

/-- The `calendar` month lengths as used by `datetime`. -/
def daysInMonth (m y : ℕ) : ℕ :=
  if m = 2 then (if isLeap y then 29 else 28)
  else if m = 4 ∨ m = 6 ∨ m = 9 ∨ m = 11 then 30
  else 31

/-- The extra checks `datetime(year, month, day)` performs beyond the
regex shape: `year ≥ 1` (MINYEAR) and the day fits the month.  The regex
already bounds `year ≤ 9999`, `1 ≤ month ≤ 12` and `day ≥ 1`. -/
def calendarOk (d m y : ℕ) : Bool :=
  decide (1 ≤ y ∧ d ≤ daysInMonth m y)

/-- All checks on the three dash-separated fields of the input: each
field wholly matched by its pattern and the `int()` values forming a
real calendar date. -/
def checkFields (d m y : List Char) : Bool :=
  dayFieldOk d && monthFieldOk m && yearFieldOk y &&
    calendarOk (pyIntVal d) (pyIntVal m) (pyIntVal y)

/-- Embeds `validate_date(date_str)` as a predicate: `true` means the call
returns normally, `false` means it raises `InvalidDateException`. -/
def validate_date (s : String) : Bool :=
  match splitDash s.data with
  | [d, m, y] => checkFields d m y
  | _ => false

/-- The format the spec describes in words: a two-digit day, a two-digit
month and a four-digit year separated by the fixed `-` delimiter, forming
a real calendar date.  Stated from the spec, for comparison with
`validate_date`. -/
def specExactTwoDigitFormat (s : String) : Bool :=
  match splitDash s.data with
  | [d, m, y] =>
    d.all Char.isDigit && m.all Char.isDigit && y.all Char.isDigit &&
      decide (d.length = 2 ∧ m.length = 2 ∧ y.length = 4 ∧
        1 ≤ listToNat d ∧ 1 ≤ listToNat m ∧ listToNat m ≤ 12 ∧
        1 ≤ listToNat y ∧
        listToNat d ≤ daysInMonth (listToNat m) (listToNat y))
  | _ => false

/-- State of an `IndividualCustomer` after successful construction. -/
structure IndividualCustomerState where
  name : String
  date_of_birth : String
  ssn : String
  address : String
  deriving DecidableEq, Repr

/-- Embeds `IndividualCustomer.__init__(name, date_of_birth, ssn, address)`:
validates the date of birth and aborts construction
(`InvalidDateException`, modelled as `none`) when it is malformed. -/
def IndividualCustomer.new (name date_of_birth ssn address : String) :
    Option IndividualCustomerState :=
  if validate_date date_of_birth then
    some { name := name, date_of_birth := date_of_birth, ssn := ssn,
           address := address }
  else none

/-- A concrete evaluation point: a checking account with balance 100 and
three recorded withdrawal entries (default limits). -/
def sampleChecking : CheckingState :=
  { acct :=
      { balance := 100, number := 1, branch := "0001", customer := "Ana",
        history :=
          [⟨"Withdrawal", 10, "d1"⟩, ⟨"Withdrawal", 20, "d2"⟩,
            ⟨"Withdrawal", 30, "d3"⟩] },
    limit := 500, withdrawal_limit := 3 }

/-- The same evaluation point with different amounts and timestamps on
its three withdrawal entries. -/
def sampleCheckingAlt : CheckingState :=
  { acct :=
      { balance := 100, number := 1, branch := "0001", customer := "Ana",
        history :=
          [⟨"Withdrawal", 11, "x1"⟩, ⟨"Withdrawal", 22, "x2"⟩,
            ⟨"Withdrawal", 33, "x3"⟩] },
    limit := 500, withdrawal_limit := 3 }

/-- Inverse of `splitDash`: rejoin fields with dashes. -/
def joinDash : List (List Char) → List Char
  | [] => []
  | [f] => f
  | f :: fs => f ++ '-' :: joinDash fs

/-!  Theorems.  -/

/-- C1: `CheckingAccount.withdraw a` checks its guards in order — it
returns failure with the state untouched when `a` exceeds the ceiling
(regardless of balance or prior withdrawal count), otherwise returns
failure with the state untouched when the number of `Withdrawal` entries
recorded in the history is at least the maximum-withdrawals setting, and
otherwise delegates to the base rule `Account.withdraw`; the delegated
call may still fail on insufficient funds, again leaving the state
untouched. -/
theorem checkingWithdraw_guard_order (a : ℚ) (c : CheckingState) :
    CheckingAccount.withdraw a c =
      (if c.limit < a then (false, c)
       else if c.withdrawal_limit ≤ countWithdrawals c.acct.history then
         (false, c)
       else ((Account.withdraw a c.acct).1,
         { c with acct := (Account.withdraw a c.acct).2 })) ∧
    (a ≤ c.limit →
      countWithdrawals c.acct.history < c.withdrawal_limit →
      c.acct.balance < a → CheckingAccount.withdraw a c = (false, c)) := by
  constructor
  · rfl
  · intro h1 h2 h3
    simp [CheckingAccount.withdraw, Account.withdraw, not_lt.mpr h1,
      not_le.mpr h2, h3]

/-- Witness for C1 at concrete inputs: on a fresh checking account
(balance 0, ceiling 500, max 3 withdrawals), a withdrawal of 20 passes
both limit guards but fails on insufficient funds without mutation. -/
theorem checkingWithdraw_guard_order_witness :
    CheckingAccount.withdraw 20 (CheckingAccount.new_account "Ana" 1) =
      (false, CheckingAccount.new_account "Ana" 1) :=
  (checkingWithdraw_guard_order 20 (CheckingAccount.new_account "Ana" 1)).2
    (by norm_num [CheckingAccount.new_account])
    (by decide)
    (by norm_num [CheckingAccount.new_account, Account.new_account])

/-- C2: `Account.deposit a` succeeds iff `a > 0`; on success the balance
increases by exactly `a`; on failure (`a ≤ 0`) it returns `false` with
the state unchanged — and depositing exactly 0 is a failure. -/
theorem deposit_succeeds_iff_pos (a : ℚ) (s : AccountState) :
    ((Account.deposit a s).1 = true ↔ 0 < a) ∧
    (0 < a → (Account.deposit a s).2.balance = s.balance + a) ∧
    (a ≤ 0 → Account.deposit a s = (false, s)) ∧
    Account.deposit 0 s = (false, s) := by
  refine ⟨?_, ?_, ?_, ?_⟩
  · by_cases h : 0 < a <;> simp [Account.deposit, h]
  · intro h; simp [Account.deposit, h]
  · intro h; simp [Account.deposit, not_lt.mpr h]
  · simp [Account.deposit]

/-- Witness for C2: depositing 5 into a fresh account yields balance
`0 + 5`, and depositing `-1` fails without mutation. -/
theorem deposit_succeeds_iff_pos_witness :
    (Account.deposit 5 (Account.new_account "Ana" 1)).2.balance =
      (Account.new_account "Ana" 1).balance + 5 ∧
    Account.deposit (-1) (Account.new_account "Ana" 1) =
      (false, Account.new_account "Ana" 1) :=
  ⟨(deposit_succeeds_iff_pos 5 (Account.new_account "Ana" 1)).2.1
      (by norm_num),
   (deposit_succeeds_iff_pos (-1) (Account.new_account "Ana" 1)).2.2.1
      (by norm_num)⟩

/-- C3: on a base account, `Account.withdraw a` succeeds iff
`0 < a ∧ a ≤ balance`; on success the balance decreases by exactly `a`;
otherwise it returns `false` with the state unchanged. -/
theorem withdraw_succeeds_iff (a : ℚ) (s : AccountState) :
    ((Account.withdraw a s).1 = true ↔ 0 < a ∧ a ≤ s.balance) ∧
    (0 < a → a ≤ s.balance →
      (Account.withdraw a s).2.balance = s.balance - a) ∧
    (¬ (0 < a ∧ a ≤ s.balance) → Account.withdraw a s = (false, s)) := by
  refine ⟨?_, ?_, ?_⟩
  · by_cases h1 : a > s.balance
    · simp [Account.withdraw, h1, not_lt.mp, le_of_lt]
    · by_cases h2 : 0 < a <;>
        simp [Account.withdraw, h1, h2, not_lt.mp h1]
  · intro h1 h2
    simp [Account.withdraw, not_lt.mpr h2, h1]
  · intro h
    rcases not_and_or.mp h with h1 | h2
    · by_cases hb : a > s.balance
      · simp [Account.withdraw, hb]
      · simp [Account.withdraw, hb, not_lt.mp h1]
    · simp [Account.withdraw, not_le.mp h2]

/-- Witness for C3: withdrawing 3 after the balance is 5 leaves `5 - 3`,
and withdrawing 9 from balance 5 fails without mutation. -/
theorem withdraw_succeeds_iff_witness :
    (Account.withdraw 3
      ((Account.deposit 5 (Account.new_account "Ana" 1)).2)).2.balance =
      ((Account.deposit 5 (Account.new_account "Ana" 1)).2).balance - 3 ∧
    Account.withdraw 9 ((Account.deposit 5 (Account.new_account "Ana" 1)).2) =
      (false, (Account.deposit 5 (Account.new_account "Ana" 1)).2) :=
  ⟨(withdraw_succeeds_iff 3
      ((Account.deposit 5 (Account.new_account "Ana" 1)).2)).2.1
      (by norm_num)
      (by norm_num [Account.deposit, Account.new_account]),
   (withdraw_succeeds_iff 9
      ((Account.deposit 5 (Account.new_account "Ana" 1)).2)).2.2
      (by norm_num [Account.deposit, Account.new_account])⟩

/-- Helper: `Account.withdraw` never touches the history (helper). -/
lemma withdraw_history_eq (a : ℚ) (s : AccountState) :
    (Account.withdraw a s).2.history = s.history := by
  unfold Account.withdraw; split_ifs <;> rfl

/-- Helper: `Account.deposit` never touches the history (helper). -/
lemma deposit_history_eq (a : ℚ) (s : AccountState) :
    (Account.deposit a s).2.history = s.history := by
  unfold Account.deposit; split_ifs <;> rfl

/-- A failed `Account.withdraw` leaves the state unchanged (helper). -/
lemma withdraw_snd_of_fail {a : ℚ} {s : AccountState}
    (h : (Account.withdraw a s).1 = false) :
    (Account.withdraw a s).2 = s := by
  unfold Account.withdraw at *
  split_ifs at h ⊢ <;> simp_all

/-- A failed `Account.deposit` leaves the state unchanged (helper). -/
lemma deposit_snd_of_fail {a : ℚ} {s : AccountState}
    (h : (Account.deposit a s).1 = false) :
    (Account.deposit a s).2 = s := by
  unfold Account.deposit at *
  split_ifs at h ⊢
  rfl

/-- Helper: `CheckingAccount.withdraw` never touches the history (helper). -/
lemma checkingWithdraw_history_eq (a : ℚ) (c : CheckingState) :
    (CheckingAccount.withdraw a c).2.acct.history = c.acct.history := by
  dsimp only [CheckingAccount.withdraw]
  split_ifs <;> simp [withdraw_history_eq]

/-- A failed `CheckingAccount.withdraw` leaves the state unchanged
(helper). -/
lemma checkingWithdraw_snd_of_fail {a : ℚ} {c : CheckingState}
    (h : (CheckingAccount.withdraw a c).1 = false) :
    (CheckingAccount.withdraw a c).2 = c := by
  dsimp only [CheckingAccount.withdraw] at h ⊢
  split_ifs at h ⊢ with h1 h2
  · rfl
  · rfl
  · simp only at h
    simp [withdraw_snd_of_fail h]

/-- Appending one entry bumps `countWithdrawals` exactly when the entry
is a `Withdrawal` entry (helper). -/
lemma countWithdrawals_append (h : List Entry) (e : Entry) :
    countWithdrawals (h ++ [e]) =
      countWithdrawals h + (if e.kind = "Withdrawal" then 1 else 0) := by
  by_cases hk : e.kind = "Withdrawal" <;>
    simp [countWithdrawals, List.filter_append, hk]

/-- One `Withdrawal.register` call adds one to the recorded withdrawal
count exactly when the underlying withdraw succeeds (helper). -/
lemma countWithdrawals_register (a : ℚ) (d : String) (s : AccountState) :
    countWithdrawals (Withdrawal.register a d s).history =
      countWithdrawals s.history +
        (if (Account.withdraw a s).1 then 1 else 0) := by
  unfold Withdrawal.register
  by_cases h : (Account.withdraw a s).1
  · simp [h, TransactionHistory.add_transaction, withdraw_history_eq,
      countWithdrawals_append]
  · simp only [Bool.not_eq_true] at h
    simp [h, withdraw_snd_of_fail h]

/-- Over a run of withdrawal applications, the recorded withdrawal count
grows by exactly the number of successful applications (helper). -/
lemma countWithdrawals_applyWithdrawals (l : List (ℚ × String))
    (s : AccountState) :
    countWithdrawals (applyWithdrawals l s).history =
      countWithdrawals s.history + successfulWithdrawals l s := by
  induction l generalizing s with
  | nil => simp [applyWithdrawals, successfulWithdrawals]
  | cons p rest ih =>
    show countWithdrawals
        (applyWithdrawals rest (Withdrawal.register p.1 p.2 s)).history = _
    rw [ih, countWithdrawals_register, successfulWithdrawals]
    ring

/-- C4: a `register` call appends exactly one matching entry iff the
invoked account operation reports success, and a failed apply leaves the
account (balance and history) completely unchanged — on base accounts and
on checking accounts, for deposits and withdrawals alike; consequently,
starting from a fresh account, after any run of withdrawal applications
the recorded `Withdrawal` count equals the number of successful ones. -/
theorem register_appends_iff_success (a : ℚ) (d : String) (s : AccountState)
    (c : CheckingState) (l : List (ℚ × String)) (cu : String) (n : ℕ) :
    ((Account.deposit a s).1 = true →
      Deposit.register a d s =
        { (Account.deposit a s).2 with
          history := s.history ++ [⟨"Deposit", a, d⟩] }) ∧
    ((Account.deposit a s).1 = false → Deposit.register a d s = s) ∧
    ((Account.withdraw a s).1 = true →
      Withdrawal.register a d s =
        { (Account.withdraw a s).2 with
          history := s.history ++ [⟨"Withdrawal", a, d⟩] }) ∧
    ((Account.withdraw a s).1 = false → Withdrawal.register a d s = s) ∧
    ((CheckingAccount.withdraw a c).1 = true →
      Withdrawal.registerOnChecking a d c =
        { (CheckingAccount.withdraw a c).2 with
          acct := { (CheckingAccount.withdraw a c).2.acct with
            history := c.acct.history ++ [⟨"Withdrawal", a, d⟩] } }) ∧
    ((CheckingAccount.withdraw a c).1 = false →
      Withdrawal.registerOnChecking a d c = c) ∧
    countWithdrawals
        (applyWithdrawals l (Account.new_account cu n)).history =
      successfulWithdrawals l (Account.new_account cu n) := by
  refine ⟨?_, ?_, ?_, ?_, ?_, ?_, ?_⟩
  · intro h
    simp [Withdrawal.register, Deposit.register, h,
      TransactionHistory.add_transaction, deposit_history_eq]
  · intro h
    simp [Deposit.register, h, deposit_snd_of_fail h]
  · intro h
    simp [Withdrawal.register, h, TransactionHistory.add_transaction,
      withdraw_history_eq]
  · intro h
    simp [Withdrawal.register, h, withdraw_snd_of_fail h]
  · intro h
    simp [Withdrawal.registerOnChecking, h,
      TransactionHistory.add_transaction, checkingWithdraw_history_eq]
  · intro h
    simp [Withdrawal.registerOnChecking, h, checkingWithdraw_snd_of_fail h]
  · rw [countWithdrawals_applyWithdrawals]
    simp [Account.new_account, countWithdrawals]

/-- Witness for C4 at concrete inputs: a successful deposit of 5 records
one `Deposit` entry; a deposit of `-1` is a no-op apply; a withdrawal of
600 on a fresh checking account is a no-op apply. -/
theorem register_appends_iff_success_witness :
    Deposit.register 5 "t1" (Account.new_account "Ana" 1) =
      { (Account.deposit 5 (Account.new_account "Ana" 1)).2 with
        history := (Account.new_account "Ana" 1).history ++
          [⟨"Deposit", 5, "t1"⟩] } ∧
    Deposit.register (-1) "t1" (Account.new_account "Ana" 1) =
      Account.new_account "Ana" 1 ∧
    Withdrawal.registerOnChecking 600 "t2"
        (CheckingAccount.new_account "Ana" 1) =
      CheckingAccount.new_account "Ana" 1 :=
  ⟨(register_appends_iff_success 5 "t1" (Account.new_account "Ana" 1)
      (CheckingAccount.new_account "Ana" 1) [] "Ana" 1).1 (by decide),
   (register_appends_iff_success (-1) "t1" (Account.new_account "Ana" 1)
      (CheckingAccount.new_account "Ana" 1) [] "Ana" 1).2.1 (by decide),
   (register_appends_iff_success 600 "t2" (Account.new_account "Ana" 1)
      (CheckingAccount.new_account "Ana" 1) [] "Ana" 1).2.2.2.2.2.1
      (by decide)⟩

/-- The base withdraw success flag as a boolean formula (helper). -/
lemma withdraw_fst_eq (a : ℚ) (s : AccountState) :
    (Account.withdraw a s).1 =
      (decide (0 < a) && decide (a ≤ s.balance)) := by
  unfold Account.withdraw
  split_ifs with h1 h2
  · simp [not_le.mpr h1]
  · simp [h2, not_lt.mp h1]
  · simp [not_lt.mp h2]

/-- The checking withdraw success flag as a boolean formula over the
ceiling, the full-history withdrawal count, and the balance (helper). -/
lemma checkingWithdraw_fst_eq (a : ℚ) (c : CheckingState) :
    (CheckingAccount.withdraw a c).1 =
      (decide (a ≤ c.limit) &&
        decide (countWithdrawals c.acct.history < c.withdrawal_limit) &&
        decide (0 < a) && decide (a ≤ c.acct.balance)) := by
  dsimp only [CheckingAccount.withdraw]
  split_ifs with h1 h2
  · simp [not_le.mpr h1]
  · simp [not_lt.mpr h2]
  · rw [withdraw_fst_eq]
    simp [not_lt.mp h1, not_le.mp h2]

/-- Helper: `countWithdrawals` on a cons (helper). -/
lemma countWithdrawals_cons (e : Entry) (t : List Entry) :
    countWithdrawals (e :: t) =
      (if e.kind = "Withdrawal" then 1 else 0) + countWithdrawals t := by
  by_cases h : e.kind = "Withdrawal" <;>
    simp [countWithdrawals, List.filter_cons, h, Nat.add_comm]

/-- Helper: `countWithdrawals` only looks at the kind of each entry: histories
with the same kinds (amounts and timestamps free) count alike (helper). -/
lemma countWithdrawals_eq_of_kinds {h1 h2 : List Entry}
    (h : h1.map Entry.kind = h2.map Entry.kind) :
    countWithdrawals h1 = countWithdrawals h2 := by
  induction h1 generalizing h2 with
  | nil =>
    cases h2 with
    | nil => rfl
    | cons e2 t2 => simp at h
  | cons e t ih =>
    cases h2 with
    | nil => simp at h
    | cons e2 t2 =>
      simp only [List.map_cons, List.cons.injEq] at h
      rw [countWithdrawals_cons, countWithdrawals_cons, h.1, ih h.2]

/-- The inherited deposit on a checking account never touches the
history (helper). -/
lemma checkingDeposit_history_eq (a : ℚ) (c : CheckingState) :
    (CheckingAccount.deposit a c).2.acct.history = c.acct.history := by
  simp [CheckingAccount.deposit, deposit_history_eq]

/-- A failed inherited deposit leaves the checking state unchanged
(helper). -/
lemma checkingDeposit_snd_of_fail {a : ℚ} {c : CheckingState}
    (h : (CheckingAccount.deposit a c).1 = false) :
    (CheckingAccount.deposit a c).2 = c := by
  have : (Account.deposit a c.acct).1 = false := h
  simp [CheckingAccount.deposit, deposit_snd_of_fail this]

/-- A deposit registration never changes the withdrawal count (helper). -/
lemma countWithdrawals_registerDep (a : ℚ) (d : String) (c : CheckingState) :
    countWithdrawals (Deposit.registerOnChecking a d c).acct.history =
      countWithdrawals c.acct.history := by
  unfold Deposit.registerOnChecking
  by_cases h : (CheckingAccount.deposit a c).1
  · simp [h, TransactionHistory.add_transaction, checkingDeposit_history_eq,
      countWithdrawals_append]
  · simp only [Bool.not_eq_true] at h
    simp [h, checkingDeposit_snd_of_fail h]

/-- A withdrawal registration on a checking account adds one to the
withdrawal count exactly when the withdraw succeeds (helper). -/
lemma countWithdrawals_registerWd (a : ℚ) (d : String) (c : CheckingState) :
    countWithdrawals (Withdrawal.registerOnChecking a d c).acct.history =
      countWithdrawals c.acct.history +
        (if (CheckingAccount.withdraw a c).1 then 1 else 0) := by
  unfold Withdrawal.registerOnChecking
  by_cases h : (CheckingAccount.withdraw a c).1
  · simp [h, TransactionHistory.add_transaction,
      checkingWithdraw_history_eq, countWithdrawals_append]
  · simp only [Bool.not_eq_true] at h
    simp [h, checkingWithdraw_snd_of_fail h]

/-- Over any run of registered transactions, the recorded withdrawal
count grows by exactly the number of successful withdrawals and is never
reset (helper). -/
lemma countWithdrawals_applyTxs (l : List TxReq) (c : CheckingState) :
    countWithdrawals (applyTxs l c).acct.history =
      countWithdrawals c.acct.history + successfulTxWithdrawals l c := by
  induction l generalizing c with
  | nil => simp [applyTxs, successfulTxWithdrawals]
  | cons t rest ih =>
    cases t with
    | dep a d =>
      show countWithdrawals
          (applyTxs rest (Deposit.registerOnChecking a d c)).acct.history = _
      rw [ih, countWithdrawals_registerDep, successfulTxWithdrawals]
    | wd a d =>
      show countWithdrawals
          (applyTxs rest (Withdrawal.registerOnChecking a d c)).acct.history
          = _
      rw [ih, countWithdrawals_registerWd, successfulTxWithdrawals]
      ring

/-- C5: the withdrawal count used by the checking limit check is the
number of `Withdrawal` entries over the entire recorded history — when
the ceiling guard passes, success is decided by comparing that full count
with the maximum (together with the base funds rule); the decision is
blind to entry timestamps (and amounts); and over any transaction run
from account creation the count accumulates the successful withdrawals,
never being reset. -/
theorem checking_count_full_history (a : ℚ) (c c1 c2 : CheckingState)
    (l : List TxReq) (cu : String) (n : ℕ) :
    (a ≤ c.limit →
      ((CheckingAccount.withdraw a c).1 = true ↔
        countWithdrawals c.acct.history < c.withdrawal_limit ∧
          0 < a ∧ a ≤ c.acct.balance)) ∧
    (c1.limit = c2.limit → c1.withdrawal_limit = c2.withdrawal_limit →
      c1.acct.balance = c2.acct.balance →
      c1.acct.history.map Entry.kind = c2.acct.history.map Entry.kind →
      (CheckingAccount.withdraw a c1).1 = (CheckingAccount.withdraw a c2).1) ∧
    countWithdrawals
        (applyTxs l (CheckingAccount.new_account cu n)).acct.history =
      successfulTxWithdrawals l (CheckingAccount.new_account cu n) := by
  refine ⟨?_, ?_, ?_⟩
  · intro h
    rw [checkingWithdraw_fst_eq]
    simp [h, and_comm, and_left_comm]
  · intro hl hw hb hk
    rw [checkingWithdraw_fst_eq, checkingWithdraw_fst_eq, hl, hw, hb,
      countWithdrawals_eq_of_kinds hk]
  · rw [countWithdrawals_applyTxs]
    simp [CheckingAccount.new_account, Account.new_account, countWithdrawals]

/-- Witness for C5 at concrete inputs: on a checking account with
balance 100 and three past withdrawal entries, a withdrawal of 40 is
characterized by the full-history count (three ≥ three, so it fails),
and the decision is unchanged when the three entries carry different
timestamps and amounts. -/
theorem checking_count_full_history_witness :
    ((CheckingAccount.withdraw 40 sampleChecking).1 = true ↔
      countWithdrawals sampleChecking.acct.history <
          sampleChecking.withdrawal_limit ∧
        (0 : ℚ) < 40 ∧ (40 : ℚ) ≤ sampleChecking.acct.balance) ∧
    (CheckingAccount.withdraw 40 sampleChecking).1 =
      (CheckingAccount.withdraw 40 sampleCheckingAlt).1 :=
  ⟨(checking_count_full_history 40 sampleChecking
      (CheckingAccount.new_account "Ana" 1)
      (CheckingAccount.new_account "Ana" 1) [] "Ana" 1).1 (by decide),
   (checking_count_full_history 40 (CheckingAccount.new_account "Ana" 1)
      sampleChecking sampleCheckingAlt [] "Ana" 1).2.1
      rfl rfl rfl rfl⟩

/-- C6 counterexample: a direct `Account.deposit` call of 5 on a fresh
account succeeds, yet the history stays empty — the account operation
itself appends no `Deposit` entry. -/
theorem account_ops_append_counterexample :
    (Account.deposit 5 (Account.new_account "Ana" 1)).1 = true ∧
    (Account.deposit 5 (Account.new_account "Ana" 1)).2.history = [] :=
  ⟨rfl, rfl⟩

/-- C6 amended: a direct `Account.deposit` or `Account.withdraw` call
never touches the history, whether it succeeds or fails; the matching
history entry is appended by `Deposit.register` / `Withdrawal.register`
after the operation reports success (so a successful transaction — not a
bare operation call — leaves a matching entry). -/
theorem account_ops_leave_history_to_register (a : ℚ) (d : String)
    (s : AccountState) :
    (Account.deposit a s).2.history = s.history ∧
    (Account.withdraw a s).2.history = s.history ∧
    (Deposit.register a d s =
      if (Account.deposit a s).1 then
        { (Account.deposit a s).2 with
          history := s.history ++ [⟨"Deposit", a, d⟩] }
      else s) ∧
    (Withdrawal.register a d s =
      if (Account.withdraw a s).1 then
        { (Account.withdraw a s).2 with
          history := s.history ++ [⟨"Withdrawal", a, d⟩] }
      else s) := by
  refine ⟨deposit_history_eq a s, withdraw_history_eq a s, ?_, ?_⟩
  · by_cases h : (Account.deposit a s).1
    · simp [Deposit.register, h, TransactionHistory.add_transaction,
        deposit_history_eq]
    · simp only [Bool.not_eq_true] at h
      simp [Deposit.register, h, deposit_snd_of_fail h]
  · by_cases h : (Account.withdraw a s).1
    · simp [Withdrawal.register, h, TransactionHistory.add_transaction,
        withdraw_history_eq]
    · simp only [Bool.not_eq_true] at h
      simp [Withdrawal.register, h, withdraw_snd_of_fail h]

/-- C7: for every `x > 0`, depositing `x` then withdrawing `x` (via
transactions) on a freshly created base account returns the balance to 0
and leaves exactly the two history entries `Deposit` then `Withdrawal`,
in that order. -/
theorem deposit_withdraw_roundtrip (x : ℚ) (d1 d2 cu : String) (n : ℕ)
    (hx : 0 < x) :
    (Withdrawal.register x d2
        (Deposit.register x d1 (Account.new_account cu n))).balance = 0 ∧
    (Withdrawal.register x d2
        (Deposit.register x d1 (Account.new_account cu n))).history =
      [⟨"Deposit", x, d1⟩, ⟨"Withdrawal", x, d2⟩] := by
  have h1 : Deposit.register x d1 (Account.new_account cu n) =
      { balance := 0 + x, number := n, branch := "0001", customer := cu,
        history := [⟨"Deposit", x, d1⟩] } := by
    simp [Deposit.register, Account.deposit, Account.new_account, hx,
      TransactionHistory.add_transaction]
  rw [h1]
  have hx2 : ¬ (x > 0 + x) := by simp
  constructor
  · simp [Withdrawal.register, Account.withdraw, hx, hx2,
      TransactionHistory.add_transaction]
  · simp [Withdrawal.register, Account.withdraw, hx, hx2,
      TransactionHistory.add_transaction]

/-- Witness for C7 at `x = 7`. -/
theorem deposit_withdraw_roundtrip_witness :
    (Withdrawal.register 7 "t2"
        (Deposit.register 7 "t1" (Account.new_account "Ana" 1))).balance =
      0 ∧
    (Withdrawal.register 7 "t2"
        (Deposit.register 7 "t1" (Account.new_account "Ana" 1))).history =
      [⟨"Deposit", 7, "t1"⟩, ⟨"Withdrawal", 7, "t2"⟩] :=
  deposit_withdraw_roundtrip 7 "t1" "t2" "Ana" 1 (by norm_num)

/-- A dash-free field splits into itself (helper). -/
lemma splitDash_no_dash {l : List Char} (h : '-' ∉ l) :
    splitDash l = [l] := by
  induction l with
  | nil => rfl
  | cons c t ih =>
    have hc : ¬ c = '-' := fun hc => h (hc ▸ List.mem_cons_self c t)
    have ht : '-' ∉ t := fun ht => h (List.mem_cons_of_mem c ht)
    simp [splitDash, hc, ih ht]

/-- Splitting pulls off a leading dash-free field (helper). -/
lemma splitDash_append {d : List Char} (r : List Char) (h : '-' ∉ d) :
    splitDash (d ++ '-' :: r) = d :: splitDash r := by
  induction d with
  | nil => simp [splitDash]
  | cons c t ih =>
    have hc : ¬ c = '-' := fun hc => h (hc ▸ List.mem_cons_self c t)
    have ht : '-' ∉ t := fun ht => h (List.mem_cons_of_mem c ht)
    simp [splitDash, hc, ih ht]

/-- Helper: `splitDash` always yields at least one field (helper). -/
lemma splitDash_ne_nil (l : List Char) : splitDash l ≠ [] := by
  induction l with
  | nil => simp [splitDash]
  | cons c t ih =>
    simp only [splitDash]
    split_ifs
    · simp
    · cases h : splitDash t with
      | nil => exact absurd h ih
      | cons f fs => simp

/-- Helper: `joinDash` undoes `splitDash` (helper). -/
lemma joinDash_splitDash (l : List Char) : joinDash (splitDash l) = l := by
  induction l with
  | nil => rfl
  | cons c t ih =>
    by_cases hc : c = '-'
    · subst hc
      simp only [splitDash, if_pos rfl]
      cases h : splitDash t with
      | nil => exact absurd h (splitDash_ne_nil t)
      | cons f fs => rw [h] at ih; simp [joinDash, ih]
    · simp only [splitDash, if_neg hc]
      cases h : splitDash t with
      | nil => exact absurd h (splitDash_ne_nil t)
      | cons f fs =>
        rw [h] at ih
        cases fs with
        | nil => simpa [joinDash] using congrArg (c :: ·) ih
        | cons f2 fs2 => simpa [joinDash] using congrArg (c :: ·) ih

/-- C8 counterexample: `validate_date` accepts `"1-01-1990"`, whose day
field is a single digit, so acceptance is not equivalent to the exact
two-digit-day/two-digit-month/four-digit-year format the claim states. -/
theorem validate_date_counterexample :
    validate_date "1-01-1990" = true ∧
    specExactTwoDigitFormat "1-01-1990" = false :=
  ⟨rfl, rfl⟩

/-- C8 amended: `validate_date` succeeds exactly on texts of the form
`day-month-year` where the dash-free fields pass `checkFields` — the day
field wholly matched by `3[0-1]|[1-2]\d|0[1-9]|[1-9]| [1-9]` (so one or
two digits 1–31, the second digit of 10–29 any Unicode decimal digit,
or a space then a digit 1–9), the month by `1[0-2]|0[1-9]|[1-9]` (ASCII,
value 1–12), the year by `\d\d\d\d` (exactly four Unicode decimal
digits), with the `int()` values a real calendar date (`year ≥ 1`, day
fitting the month with the Gregorian leap rule).  In particular the
impossible `"31-02-2020"` fails, `"01-01-1990"` succeeds, and the
lenient `"1-1-1990"` and `" 5-01-1990"` also succeed;
`IndividualCustomer` construction succeeds exactly when its
date-of-birth passes `validate_date`. -/
theorem validate_date_amended (ds ms ys : List Char) (s : String)
    (name dob ssn address : String)
    (h1 : '-' ∉ ds) (h2 : '-' ∉ ms) (h3 : '-' ∉ ys) :
    validate_date ⟨ds ++ '-' :: (ms ++ '-' :: ys)⟩ = checkFields ds ms ys ∧
    (validate_date s = true →
      ∃ d m y : List Char, s.data = d ++ '-' :: (m ++ '-' :: y) ∧
        checkFields d m y = true) ∧
    validate_date "31-02-2020" = false ∧
    validate_date "01-01-1990" = true ∧
    validate_date "1-1-1990" = true ∧
    validate_date " 5-01-1990" = true ∧
    (IndividualCustomer.new name dob ssn address).isSome =
      validate_date dob := by
  refine ⟨?_, ?_, rfl, rfl, rfl, rfl, ?_⟩
  · show (match splitDash (ds ++ '-' :: (ms ++ '-' :: ys)) with
      | [d, m, y] => checkFields d m y
      | _ => false) = checkFields ds ms ys
    rw [splitDash_append _ h1, splitDash_append _ h2, splitDash_no_dash h3]
  · intro hv
    unfold validate_date at hv
    split at hv
    · next d m y heq =>
      have hj := joinDash_splitDash s.data
      rw [heq] at hj
      simp only [joinDash] at hj
      exact ⟨d, m, y, hj.symm, hv⟩
    · simp at hv
  · unfold IndividualCustomer.new
    by_cases h : validate_date dob <;> simp [h]

/-- Witness for C8 at concrete inputs: the characterization applied to
the fields of `"01-01-1990"` and to the space-day fields of
`" 5-01-1990"`, and completeness applied to `"01-01-1990"`. -/
theorem validate_date_amended_witness :
    validate_date ⟨['0', '1'] ++ '-' :: (['0', '1'] ++ '-' ::
        ['1', '9', '9', '0'])⟩ =
      checkFields ['0', '1'] ['0', '1'] ['1', '9', '9', '0'] ∧
    validate_date ⟨[' ', '5'] ++ '-' :: (['0', '1'] ++ '-' ::
        ['1', '9', '9', '0'])⟩ =
      checkFields [' ', '5'] ['0', '1'] ['1', '9', '9', '0'] ∧
    (∃ d m y : List Char,
      ("01-01-1990" : String).data = d ++ '-' :: (m ++ '-' :: y) ∧
        checkFields d m y = true) :=
  ⟨(validate_date_amended ['0', '1'] ['0', '1'] ['1', '9', '9', '0']
      "01-01-1990" "Ana" "01-01-1990" "111" "Rua A, 1"
      (by decide) (by decide) (by decide)).1,
   (validate_date_amended [' ', '5'] ['0', '1'] ['1', '9', '9', '0']
      "01-01-1990" "Ana" "01-01-1990" "111" "Rua A, 1"
      (by decide) (by decide) (by decide)).1,
   (validate_date_amended ['0', '1'] ['0', '1'] ['1', '9', '9', '0']
      "01-01-1990" "Ana" "01-01-1990" "111" "Rua A, 1"
      (by decide) (by decide) (by decide)).2.1 rfl⟩

/-- A deposit keeps a non-negative balance non-negative (helper). -/
lemma deposit_balance_nonneg (a : ℚ) {s : AccountState}
    (h : 0 ≤ s.balance) : 0 ≤ (Account.deposit a s).2.balance := by
  unfold Account.deposit
  split_ifs with hp
  · exact add_nonneg h (le_of_lt hp)
  · exact h

/-- A base withdraw keeps a non-negative balance non-negative (helper). -/
lemma withdraw_balance_nonneg (a : ℚ) {s : AccountState}
    (h : 0 ≤ s.balance) : 0 ≤ (Account.withdraw a s).2.balance := by
  unfold Account.withdraw
  split_ifs with h1 h2
  · exact h
  · exact sub_nonneg.mpr (not_lt.mp h1)
  · exact h

/-- A checking withdraw keeps a non-negative balance non-negative
(helper). -/
lemma checkingWithdraw_balance_nonneg (a : ℚ) {c : CheckingState}
    (h : 0 ≤ c.acct.balance) :
    0 ≤ (CheckingAccount.withdraw a c).2.acct.balance := by
  dsimp only [CheckingAccount.withdraw]
  split_ifs
  · exact h
  · exact h
  · exact withdraw_balance_nonneg a h

/-- Any run of direct operations on a base account keeps the balance
non-negative (helper). -/
lemma runOps_balance_nonneg (l : List AccountOp) {s : AccountState}
    (h : 0 ≤ s.balance) : 0 ≤ (Account.runOps l s).balance := by
  induction l generalizing s with
  | nil => exact h
  | cons op rest ih =>
    cases op with
    | dep a =>
      show 0 ≤ (Account.runOps rest (Account.deposit a s).2).balance
      exact ih (deposit_balance_nonneg a h)
    | wd a =>
      show 0 ≤ (Account.runOps rest (Account.withdraw a s).2).balance
      exact ih (withdraw_balance_nonneg a h)

/-- Any run of direct operations on a checking account keeps the balance
non-negative (helper). -/
lemma checkingRunOps_balance_nonneg (l : List AccountOp)
    {c : CheckingState} (h : 0 ≤ c.acct.balance) :
    0 ≤ (CheckingAccount.runOps l c).acct.balance := by
  induction l generalizing c with
  | nil => exact h
  | cons op rest ih =>
    cases op with
    | dep a =>
      show 0 ≤
        (CheckingAccount.runOps rest
          (CheckingAccount.deposit a c).2).acct.balance
      exact ih (deposit_balance_nonneg a h)
    | wd a =>
      show 0 ≤
        (CheckingAccount.runOps rest
          (CheckingAccount.withdraw a c).2).acct.balance
      exact ih (checkingWithdraw_balance_nonneg a h)

/-- C9: every account starts at balance 0, and after every sequence of
direct deposit/withdraw operations — succeeding or failing, on the base
variant or the checking variant — the balance is still non-negative. -/
theorem balance_nonneg_invariant (cu : String) (n : ℕ)
    (l l2 : List AccountOp) :
    (Account.new_account cu n).balance = 0 ∧
    0 ≤ (Account.runOps l (Account.new_account cu n)).balance ∧
    (CheckingAccount.new_account cu n).acct.balance = 0 ∧
    0 ≤ (CheckingAccount.runOps l2
        (CheckingAccount.new_account cu n)).acct.balance :=
  ⟨rfl, runOps_balance_nonneg l (le_refl 0), rfl,
    checkingRunOps_balance_nonneg l2 (le_refl 0)⟩

/-- C10: a direct `Account.deposit`, `Account.withdraw` or
`CheckingAccount.withdraw` call mutates at most the balance — account
number, branch code, owning customer, history, and (for a checking
account) the ceiling and maximum-withdrawals setting all survive the
call unchanged, whether it succeeds or fails. -/
theorem ops_frame (a : ℚ) (s : AccountState) (c : CheckingState) :
    (Account.deposit a s).2.number = s.number ∧
    (Account.deposit a s).2.branch = s.branch ∧
    (Account.deposit a s).2.customer = s.customer ∧
    (Account.deposit a s).2.history = s.history ∧
    (Account.withdraw a s).2.number = s.number ∧
    (Account.withdraw a s).2.branch = s.branch ∧
    (Account.withdraw a s).2.customer = s.customer ∧
    (Account.withdraw a s).2.history = s.history ∧
    (CheckingAccount.withdraw a c).2.acct.number = c.acct.number ∧
    (CheckingAccount.withdraw a c).2.acct.branch = c.acct.branch ∧
    (CheckingAccount.withdraw a c).2.acct.customer = c.acct.customer ∧
    (CheckingAccount.withdraw a c).2.acct.history = c.acct.history ∧
    (CheckingAccount.withdraw a c).2.limit = c.limit ∧
    (CheckingAccount.withdraw a c).2.withdrawal_limit =
      c.withdrawal_limit := by
  refine ⟨?_, ?_, ?_, ?_, ?_, ?_, ?_, ?_, ?_, ?_, ?_, ?_, ?_, ?_⟩ <;>
    first
      | (unfold Account.deposit; split_ifs <;> rfl)
      | (unfold Account.withdraw; split_ifs <;> rfl)
      | (dsimp only [CheckingAccount.withdraw]; split_ifs <;>
          first
            | rfl
            | (unfold Account.withdraw; split_ifs <;> rfl))
